import Mathlib

/-!
Verification development for the EvilStack VM: a shallow embedding of the
symbol-to-instruction compiler, the label resolver and the execution engine
of `src/vm/stackfk_vm.rs`, together with theorems settling the specification
claims about them.

Modelling conventions:
* Rust `i32` values are modelled as `Int`, with the default (debug) build's
  arithmetic aborts made explicit: an Integer-Integer add/sub/mul whose
  result leaves the i32 range panics, and div/idiv/mod panic on a zero
  divisor or on i32::MIN divided by -1, exactly the conditions the source
  build checks.  The release build's wrapping semantics is not modelled.
* Rust `f32` values are modelled as exact rationals (`Rat`); every float
  computation exercised here stays within values binary32 represents exactly,
  where f32 arithmetic coincides with exact rational arithmetic.
* `Error::print` writes one diagnostic to stderr; diagnostics are collected
  in order in the machine state (`diags`).  `println!` output is collected in
  `output`.  Stdin is modelled as a list of already-trimmed lines; end of
  input yields the empty line, matching `read_line` at EOF.  The random
  generator is modelled by an oracle stream of rationals.
* A Rust `unwrap()` on `None` (and arithmetic aborts) are modelled by the
  `panic` outcome, distinct from a diagnosed halt.
-/

namespace EvilStack

/-- Runtime values (`ConstType` in the source): 32-bit signed integers,
32-bit floats and strings.  See the modelling conventions above. -/
inductive ConstType where
  | Integer : Int → ConstType
  | Float : Rat → ConstType
  | Str : String → ConstType
deriving DecidableEq

/-- The eight comparison flags, all recomputed together by `cmp`/`scmp`. -/
structure Flags where
  zero : Bool
  negative : Bool
  equal : Bool
  not_equal : Bool
  greater_than : Bool
  less_than : Bool
  greater_than_or_equal : Bool
  less_than_or_equal : Bool
deriving DecidableEq

/-- Symbol kinds produced by the tokenizer (`SymbolType` in the source). -/
inductive SymbolType where
  | Instruction : SymbolType
  | Label : SymbolType
  | LabelReference : SymbolType
  | Integer : SymbolType
  | Float : SymbolType
  | Str : SymbolType
deriving DecidableEq

/-- A classified lexical symbol with its source position. -/
structure Symbol where
  symbol_type : SymbolType
  value : String
  line_number : Nat
  column_number : Nat
deriving DecidableEq

/-- Compiled instructions (`Instruction` in the source).  Every instruction
carries its source-position string; jumps and labels carry a label name,
`Push` and `Cmp` carry a literal value. -/
inductive Instruction where
  | Push : ConstType → String → Instruction
  | Pop : String → Instruction
  | Duplicate : String → Instruction
  | Swap : String → Instruction
  | Add : String → Instruction
  | Sub : String → Instruction
  | Mul : String → Instruction
  | Div : String → Instruction
  | IDiv : String → Instruction
  | Mod : String → Instruction
  | Label : String → String → Instruction
  | CmpInStack : String → Instruction
  | Cmp : ConstType → String → Instruction
  | Return : String → Instruction
  | Jump : String → String → Instruction
  | JumpEq : String → String → Instruction
  | JumpNotEq : String → String → Instruction
  | JumpGt : String → String → Instruction
  | JumpLt : String → String → Instruction
  | JumpGtEq : String → String → Instruction
  | JumpLtEq : String → String → Instruction
  | JumpZero : String → String → Instruction
  | JumpNotZero : String → String → Instruction
  | JumpNeg : String → String → Instruction
  | Exit : String → Instruction
  | Print : String → Instruction
  | Read : String → Instruction
  | AToI : String → Instruction
  | IToA : String → Instruction
  | IToF : String → Instruction
  | FToI : String → Instruction
  | Random : String → Instruction
  | Time : String → Instruction
deriving DecidableEq

/-- Position string, `format!("{}:{}", line, column)` in the source. -/
def posOf (s : Symbol) : String :=
  toString s.line_number ++ ":" ++ toString s.column_number

/-- Decimal value of a digit character. -/
def digit? (c : Char) : Option Nat :=
  if '0' ≤ c ∧ c ≤ '9' then some (c.toNat - '0'.toNat) else none

/-- Accumulating decimal parse over a character list. -/
def parseNatGo : List Char → Nat → Option Nat
  | [], acc => some acc
  | c :: cs, acc =>
    match digit? c with
    | some d => parseNatGo cs (acc * 10 + d)
    | none => none

/-- Decimal digits to a natural number; fails on empty or non-digit text. -/
def parseNat : List Char → Option Nat
  | [] => none
  | cs => parseNatGo cs 0

/-- `str.parse::<i32>()`: an optional sign, decimal digits, range-checked. -/
def parseI32 (s : String) : Option Int :=
  match s.data with
  | '-' :: cs =>
    match parseNat cs with
    | some n => if (n : Int) ≤ 2 ^ 31 then some (-(n : Int)) else none
    | none => none
  | '+' :: cs =>
    match parseNat cs with
    | some n => if (n : Int) < 2 ^ 31 then some (n : Int) else none
    | none => none
  | cs =>
    match parseNat cs with
    | some n => if (n : Int) < 2 ^ 31 then some (n : Int) else none
    | none => none

/-- Splitting a character list at dots. -/
def splitDots : List Char → List Char → List (List Char)
  | [], cur => [cur.reverse]
  | c :: cs, cur =>
    if c = '.' then cur.reverse :: splitDots cs [] else splitDots cs (c :: cur)

/-- `str.parse::<f32>()` on the digits-and-dots text the tokenizer supplies,
modelled as an exact decimal rational (see the conventions above). -/
def parseF32 (s : String) : Option Rat :=
  match splitDots s.data [] with
  | [w] => (parseNat w).map (fun n => (n : Rat))
  | [w, f] =>
    match parseNat w, parseNat f with
    | some wn, some fn => some ((wn : Rat) + (fn : Rat) / ((10 : Rat) ^ f.length))
    | _, _ => none
  | _ => none

/-- `&value[..value.len() - 1]`: strip the trailing marker byte of a label
definition (the markers are ASCII, so byte slicing is character slicing). -/
def stripLast (s : String) : String :=
  String.mk s.data.dropLast

/-- `&value[1..]`: strip the leading marker byte of a label reference. -/
def stripFirst (s : String) : String :=
  String.mk (s.data.drop 1)

/-- Result of `StackFkVM::compile`.  The source's error path prints one
diagnostic and returns from `compile` only, leaving the partial program in
`self.program`; `failed` therefore carries that partial program together
with the diagnostic.  `panicked` models the `unwrap()` on a failed numeric
parse, which aborts the whole process. -/
inductive CompileOutcome where
  | done : List Instruction → CompileOutcome
  | failed : List Instruction → String → String → CompileOutcome
  | panicked : List Instruction → CompileOutcome
deriving DecidableEq

/-- State threaded through the compile loop: the program built so far and
the pending-argument state (`arg_required`, `arg_required_by`). -/
structure CompState where
  program : List Instruction
  arg_required : Bool
  arg_required_by : String
deriving DecidableEq

/-- One-pass translation of the symbol sequence, transcribed arm by arm from
`StackFkVM::compile`. -/
def compileGo : List Symbol → CompState → CompileOutcome
  | [], st =>
    if st.arg_required then
      .failed st.program ("Missing argument for instruction: " ++ st.arg_required_by) ""
    else
      .done st.program
  | sym :: rest, st =>
    match sym.symbol_type with
    | .Instruction =>
      if st.arg_required then
        .failed st.program ("Missing argument for instruction: " ++ st.arg_required_by) (posOf sym)
      else
        match sym.value with
        | "push" => compileGo rest { st with arg_required := true, arg_required_by := "push" }
        | "pop" => compileGo rest { st with program := st.program ++ [.Pop (posOf sym)] }
        | "add" => compileGo rest { st with program := st.program ++ [.Add (posOf sym)] }
        | "sub" => compileGo rest { st with program := st.program ++ [.Sub (posOf sym)] }
        | "mul" => compileGo rest { st with program := st.program ++ [.Mul (posOf sym)] }
        | "div" => compileGo rest { st with program := st.program ++ [.Div (posOf sym)] }
        | "idiv" => compileGo rest { st with program := st.program ++ [.IDiv (posOf sym)] }
        | "mod" => compileGo rest { st with program := st.program ++ [.Mod (posOf sym)] }
        | "print" => compileGo rest { st with program := st.program ++ [.Print (posOf sym)] }
        | "read" => compileGo rest { st with program := st.program ++ [.Read (posOf sym)] }
        | "atoi" => compileGo rest { st with program := st.program ++ [.AToI (posOf sym)] }
        | "jmp" => compileGo rest { st with arg_required := true, arg_required_by := "jmp" }
        | "jeq" => compileGo rest { st with arg_required := true, arg_required_by := "jeq" }
        | "jne" => compileGo rest { st with arg_required := true, arg_required_by := "jne" }
        | "jgt" => compileGo rest { st with arg_required := true, arg_required_by := "jgt" }
        | "jlt" => compileGo rest { st with arg_required := true, arg_required_by := "jlt" }
        | "jge" => compileGo rest { st with arg_required := true, arg_required_by := "jge" }
        | "jle" => compileGo rest { st with arg_required := true, arg_required_by := "jle" }
        | "jz" => compileGo rest { st with arg_required := true, arg_required_by := "jz" }
        | "jnz" => compileGo rest { st with arg_required := true, arg_required_by := "jnz" }
        | "jneg" => compileGo rest { st with arg_required := true, arg_required_by := "jneg" }
        | "cmp" => compileGo rest { st with arg_required := true, arg_required_by := "cmp" }
        | "scmp" => compileGo rest { st with program := st.program ++ [.CmpInStack (posOf sym)] }
        | "exit" => compileGo rest { st with program := st.program ++ [.Exit (posOf sym)] }
        | "ret" => compileGo rest { st with program := st.program ++ [.Return (posOf sym)] }
        | "rand" => compileGo rest { st with program := st.program ++ [.Random (posOf sym)] }
        | "time" => compileGo rest { st with program := st.program ++ [.Time (posOf sym)] }
        | v => .failed st.program ("Unknown instruction: " ++ v) (posOf sym)
    | .Str =>
      if !st.arg_required then
        .failed st.program ("Unexpected string literal: " ++ sym.value) (posOf sym)
      else
        match st.arg_required_by with
        | "push" =>
          compileGo rest
            { st with
              program := st.program ++ [.Push (.Str sym.value) (posOf sym)]
              arg_required := false }
        | "cmp" =>
          compileGo rest
            { st with
              program := st.program ++ [.Cmp (.Str sym.value) (posOf sym)]
              arg_required := false }
        | _ => .failed st.program ("Unexpected string literal: " ++ sym.value) (posOf sym)
    | .Integer =>
      if !st.arg_required then
        .failed st.program ("Unexpected integer literal: " ++ sym.value) (posOf sym)
      else
        match st.arg_required_by with
        | "push" =>
          match parseI32 sym.value with
          | some v =>
            compileGo rest
              { st with
                program := st.program ++ [.Push (.Integer v) (posOf sym)]
                arg_required := false }
          | none => .panicked st.program
        | "cmp" =>
          match parseI32 sym.value with
          | some v =>
            compileGo rest
              { st with
                program := st.program ++ [.Cmp (.Integer v) (posOf sym)]
                arg_required := false }
          | none => .panicked st.program
        | _ => .failed st.program ("Unexpected integer literal: " ++ sym.value) (posOf sym)
    | .Float =>
      if !st.arg_required then
        .failed st.program ("Unexpected float literal: " ++ sym.value) (posOf sym)
      else
        match st.arg_required_by with
        | "push" =>
          match parseF32 sym.value with
          | some v =>
            compileGo rest
              { st with
                program := st.program ++ [.Push (.Float v) (posOf sym)]
                arg_required := false }
          | none => .panicked st.program
        | "cmp" =>
          match parseF32 sym.value with
          | some v =>
            compileGo rest
              { st with
                program := st.program ++ [.Cmp (.Float v) (posOf sym)]
                arg_required := false }
          | none => .panicked st.program
        | _ => .failed st.program ("Unexpected float literal: " ++ sym.value) (posOf sym)
    | .Label =>
      if st.arg_required then
        .failed st.program ("Missing argument for instruction: " ++ st.arg_required_by) (posOf sym)
      else
        compileGo rest
          { st with program := st.program ++ [.Label (stripLast sym.value) (posOf sym)] }
    | .LabelReference =>
      if !st.arg_required then
        .failed st.program ("Unexpected label reference: " ++ sym.value) (posOf sym)
      else
        match st.arg_required_by with
        | "jmp" =>
          compileGo rest
            { st with
              program := st.program ++ [.Jump (stripFirst sym.value) (posOf sym)]
              arg_required := false }
        | "jeq" =>
          compileGo rest
            { st with
              program := st.program ++ [.JumpEq (stripFirst sym.value) (posOf sym)]
              arg_required := false }
        | "jne" =>
          compileGo rest
            { st with
              program := st.program ++ [.JumpNotEq (stripFirst sym.value) (posOf sym)]
              arg_required := false }
        | "jgt" =>
          compileGo rest
            { st with
              program := st.program ++ [.JumpGt (stripFirst sym.value) (posOf sym)]
              arg_required := false }
        | "jlt" =>
          compileGo rest
            { st with
              program := st.program ++ [.JumpLt (stripFirst sym.value) (posOf sym)]
              arg_required := false }
        | "jge" =>
          compileGo rest
            { st with
              program := st.program ++ [.JumpGtEq (stripFirst sym.value) (posOf sym)]
              arg_required := false }
        | "jle" =>
          compileGo rest
            { st with
              program := st.program ++ [.JumpLtEq (stripFirst sym.value) (posOf sym)]
              arg_required := false }
        | "jz" =>
          compileGo rest
            { st with
              program := st.program ++ [.JumpZero (stripFirst sym.value) (posOf sym)]
              arg_required := false }
        | "jnz" =>
          compileGo rest
            { st with
              program := st.program ++ [.JumpNotZero (stripFirst sym.value) (posOf sym)]
              arg_required := false }
        | "jneg" =>
          compileGo rest
            { st with
              program := st.program ++ [.JumpNeg (stripFirst sym.value) (posOf sym)]
              arg_required := false }
        | _ => .failed st.program ("Unexpected label reference: " ++ sym.value) (posOf sym)

/-- `StackFkVM::compile`, starting from an empty program and no pending
argument. -/
def compile (symbols : List Symbol) : CompileOutcome :=
  compileGo symbols { program := [], arg_required := false, arg_required_by := "" }

/-- `StackFkVM::analyze_labels`: records (name, index) for every `Label`
instruction, in program order. -/
def analyzeLabels (prog : List Instruction) : List (String × Nat) :=
  prog.enum.filterMap fun p =>
    match p.2 with
    | .Label l _ => some (l, p.1)
    | _ => none

/-- `HashMap` lookup over the insertions of `analyze_labels`: the last
insertion for a name wins, matching `HashMap::insert` overwrite semantics. -/
def lookupLabel (labels : List (String × Nat)) (name : String) : Option Nat :=
  labels.foldl (fun acc kv => if kv.1 == name then some kv.2 else acc) none

/-- The machine state of `StackFkVM` during execution, extended with the
observable effect streams (stdout lines, diagnostics) and the external
input/randomness oracles, per the modelling conventions above. -/
structure VMState where
  stack : List ConstType
  ip : Nat
  flags : Flags
  return_stack : List Nat
  input : List String
  rands : List Rat
  output : List String
  diags : List (String × String)
deriving DecidableEq

/-- Result of executing one instruction in the fetch-execute loop:
`cont` means the loop continues (the trailing `ip += 1` already applied),
`halt` means the handler executed `return`, `panic` models a Rust panic
(an `unwrap()` on `None`, or integer division/remainder by zero). -/
inductive StepResult where
  | cont : VMState → StepResult
  | halt : VMState → StepResult
  | panic : VMState → StepResult
deriving DecidableEq

/-- The flags at machine creation (`StackFkVM::new`): all false. -/
def initFlags : Flags :=
  { zero := false, negative := false, equal := false, not_equal := false,
    greater_than := false, less_than := false,
    greater_than_or_equal := false, less_than_or_equal := false }

/-- Machine state at the start of the run, given the external input lines,
the randomness oracle and the diagnostics already emitted by the compiler. -/
def initState (input : List String) (rands : List Rat)
    (diags : List (String × String)) : VMState :=
  { stack := [], ip := 0, flags := initFlags, return_stack := [],
    input := input, rands := rands, output := [], diags := diags }

/-- `Error::new(msg, pos).print()`: appends one diagnostic. -/
def emit (s : VMState) (msg pos : String) : VMState :=
  { s with diags := s.diags ++ [(msg, pos)] }

/-- The eight flag assignments shared by every `cmp`/`scmp` type case:
all eight booleans recomputed from `a` versus `b`. -/
def mkFlags {α : Type} [DecidableEq α] [LT α] [LE α]
    [DecidableRel (α := α) (· < ·)] [DecidableRel (α := α) (· ≤ ·)]
    (a b : α) : Flags :=
  { zero := decide (a = b)
    negative := decide (a < b)
    equal := decide (a = b)
    not_equal := decide (a ≠ b)
    greater_than := decide (b < a)
    less_than := decide (a < b)
    greater_than_or_equal := decide (b ≤ a)
    less_than_or_equal := decide (a ≤ b) }

/-- Truncation toward zero of a rational, matching `f32` casts to `i32`
within the exactly-representable range exercised here. -/
def ratTrunc (q : Rat) : Int :=
  Int.tdiv q.num (q.den : Int)

/-- Rendering of a popped value by `print` (`println!("{}", v)`), for the
integer and string cases exercised in this development; floats are rendered
from the exact rational model. -/
def renderValue : ConstType → String
  | .Integer i => toString i
  | .Float f => toString f
  | .Str s => s

/-- Taken-jump body shared by `jmp` and the conditional jumps that halt on an
unknown label: push `ip + 1` on the return stack and set ip to the target
(the loop's trailing increment then lands just past the Label no-op). -/
def doJump (labels : List (String × Nat)) (l p : String) (s : VMState) : StepResult :=
  match lookupLabel labels l with
  | some t => .cont { s with return_stack := (s.ip + 1) :: s.return_stack, ip := t + 1 }
  | none => .halt (emit s ("Unknown label: " ++ l) p)

/-- Taken-jump body of the conditional jumps whose unknown-label arm lacks a
`return` in the source: the diagnostic is emitted but the loop continues. -/
def doJumpNoHalt (labels : List (String × Nat)) (l p : String) (s : VMState) : StepResult :=
  match lookupLabel labels l with
  | some t => .cont { s with return_stack := (s.ip + 1) :: s.return_stack, ip := t + 1 }
  | none => .cont { emit s ("Unknown label: " ++ l) p with ip := s.ip + 1 }

/-- One iteration of the fetch-execute loop of `StackFkVM::execute`,
transcribed arm by arm from the source `match` (including the trailing
`self.ip += 1` of the loop body on every non-`return` path).  Integer
arithmetic panics outside the i32 range and on zero divisors or
i32::MIN / -1, as the source's debug build does (see the header note);
float arms compute in the exact-rational f32 model, which covers every
f32-exact computation with a nonzero divisor but has no infinity, so a
float division by zero is outside its faithful domain. -/
def execInstr (labels : List (String × Nat)) (ins : Instruction) (s : VMState) : StepResult :=
  match ins with
  | .Push v _ => .cont { s with stack := v :: s.stack, ip := s.ip + 1 }
  | .Pop pos =>
    match s.stack with
    | [] => .halt (emit s "Cannot pop from an empty stack" pos)
    | _ :: t => .cont { s with stack := t, ip := s.ip + 1 }
  | .Duplicate pos =>
    match s.stack with
    | [] => .halt (emit s "Cannot duplicate from an empty stack" pos)
    | v :: t => .cont { s with stack := v :: v :: t, ip := s.ip + 1 }
  | .Swap pos =>
    match s.stack with
    | a :: b :: t => .cont { s with stack := b :: a :: t, ip := s.ip + 1 }
    | _ => .halt (emit s "Not enough operands for SWAP instruction" pos)
  | .Add pos =>
    match s.stack with
    | a :: b :: t =>
      match a, b with
      | .Integer x, .Integer y =>
        if -(2 ^ 31) ≤ x + y ∧ x + y < 2 ^ 31 then
          .cont { s with stack := .Integer (x + y) :: t, ip := s.ip + 1 }
        else .panic { s with stack := t }
      | .Float x, .Float y =>
        .cont { s with stack := .Float (x + y) :: t, ip := s.ip + 1 }
      | .Float x, .Integer y =>
        .cont { s with stack := .Float (x + (y : Rat)) :: t, ip := s.ip + 1 }
      | .Integer x, .Float y =>
        .cont { s with stack := .Float ((x : Rat) + y) :: t, ip := s.ip + 1 }
      | .Str x, .Str y =>
        .cont { s with stack := .Str (y ++ x) :: t, ip := s.ip + 1 }
      | _, _ => .halt (emit { s with stack := t } "Type mismatch for ADD instruction" pos)
    | _ => .halt (emit s "Not enough operands for ADD instruction" pos)
  | .Sub pos =>
    match s.stack with
    | a :: b :: t =>
      match a, b with
      | .Integer x, .Integer y =>
        if -(2 ^ 31) ≤ y - x ∧ y - x < 2 ^ 31 then
          .cont { s with stack := .Integer (y - x) :: t, ip := s.ip + 1 }
        else .panic { s with stack := t }
      | .Float x, .Float y =>
        .cont { s with stack := .Float (y - x) :: t, ip := s.ip + 1 }
      | .Float x, .Integer y =>
        .cont { s with stack := .Float ((y : Rat) - x) :: t, ip := s.ip + 1 }
      | .Integer x, .Float y =>
        .cont { s with stack := .Float ((x : Rat) - y) :: t, ip := s.ip + 1 }
      | _, _ => .halt (emit { s with stack := t } "Type mismatch for SUB instruction" pos)
    | _ => .halt (emit s "Not enough operands for SUB instruction" pos)
  | .Mul pos =>
    match s.stack with
    | a :: b :: t =>
      match a, b with
      | .Integer x, .Integer y =>
        if -(2 ^ 31) ≤ x * y ∧ x * y < 2 ^ 31 then
          .cont { s with stack := .Integer (x * y) :: t, ip := s.ip + 1 }
        else .panic { s with stack := t }
      | .Float x, .Float y =>
        .cont { s with stack := .Float (x * y) :: t, ip := s.ip + 1 }
      | .Float x, .Integer y =>
        .cont { s with stack := .Float (x * (y : Rat)) :: t, ip := s.ip + 1 }
      | .Integer x, .Float y =>
        .cont { s with stack := .Float ((x : Rat) * y) :: t, ip := s.ip + 1 }
      | _, _ => .halt (emit { s with stack := t } "Type mismatch for MUL instruction" pos)
    | _ => .halt (emit s "Not enough operands for MUL instruction" pos)
  | .Div pos =>
    match s.stack with
    | a :: b :: t =>
      match a, b with
      | .Integer x, .Integer y =>
        if x = 0 ∨ (y = -(2 ^ 31) ∧ x = -1) then .panic { s with stack := t }
        else .cont { s with stack := .Integer (Int.tdiv y x) :: t, ip := s.ip + 1 }
      | .Float x, .Float y =>
        .cont { s with stack := .Float (y / x) :: t, ip := s.ip + 1 }
      | .Float x, .Integer y =>
        .cont { s with stack := .Float ((y : Rat) / x) :: t, ip := s.ip + 1 }
      | .Integer x, .Float y =>
        .cont { s with stack := .Float (y / (x : Rat)) :: t, ip := s.ip + 1 }
      | _, _ => .halt (emit { s with stack := t } "Type mismatch for DIV instruction" pos)
    | _ => .halt (emit s "Not enough operands for DIV instruction" pos)
  | .IDiv pos =>
    match s.stack with
    | a :: b :: t =>
      match a, b with
      | .Integer x, .Integer y =>
        if x = 0 ∨ (y = -(2 ^ 31) ∧ x = -1) then .panic { s with stack := t }
        else .cont { s with stack := .Integer (Int.tdiv y x) :: t, ip := s.ip + 1 }
      | .Float x, .Float y =>
        .cont { s with stack := .Integer ⌊y / x⌋ :: t, ip := s.ip + 1 }
      | .Float x, .Integer y =>
        .cont { s with stack := .Integer ⌊(y : Rat) / x⌋ :: t, ip := s.ip + 1 }
      | .Integer x, .Float y =>
        .cont { s with stack := .Integer ⌊y / (x : Rat)⌋ :: t, ip := s.ip + 1 }
      | _, _ => .halt (emit { s with stack := t } "Type mismatch for IDIV instruction" pos)
    | _ => .halt (emit s "Not enough operands for IDIV instruction" pos)
  | .Mod pos =>
    match s.stack with
    | a :: b :: t =>
      match a, b with
      | .Integer x, .Integer y =>
        if x = 0 ∨ (y = -(2 ^ 31) ∧ x = -1) then .panic { s with stack := t }
        else .cont { s with stack := .Integer (Int.tmod y x) :: t, ip := s.ip + 1 }
      | .Float x, .Float y =>
        .cont { s with stack := .Float (y - x * (ratTrunc (y / x) : Rat)) :: t, ip := s.ip + 1 }
      | .Float x, .Integer y =>
        .cont { s with
          stack := .Float ((y : Rat) - x * (ratTrunc ((y : Rat) / x) : Rat)) :: t
          ip := s.ip + 1 }
      | .Integer x, .Float y =>
        .cont { s with
          stack := .Float (y - (x : Rat) * (ratTrunc (y / (x : Rat)) : Rat)) :: t
          ip := s.ip + 1 }
      | _, _ => .halt (emit { s with stack := t } "Type mismatch for MOD instruction" pos)
    | _ => .halt (emit s "Not enough operands for MOD instruction" pos)
  | .Print pos =>
    match s.stack with
    | [] => .halt (emit s "Cannot print from an empty stack" pos)
    | v :: t =>
      .cont { s with stack := t, output := s.output ++ [renderValue v], ip := s.ip + 1 }
  | .Read _ =>
    match s.input with
    | i :: rest =>
      .cont { s with stack := .Str i :: s.stack, input := rest, ip := s.ip + 1 }
    | [] => .cont { s with stack := .Str "" :: s.stack, ip := s.ip + 1 }
  | .AToI pos =>
    match s.stack with
    | [] => .halt (emit s "Cannot convert emptiness to an integer!" pos)
    | v :: t =>
      match v with
      | .Str str =>
        match parseI32 str with
        | some i => .cont { s with stack := .Integer i :: t, ip := s.ip + 1 }
        | none => .halt (emit { s with stack := t } ("Invalid integer: " ++ str) pos)
      | _ => .halt (emit { s with stack := t } "Type mismatch for ATOI instruction" pos)
  | .FToI pos =>
    match s.stack with
    | [] => .halt (emit s "Cannot convert emptiness to an integer!" pos)
    | v :: t =>
      match v with
      | .Float f => .cont { s with stack := .Integer (ratTrunc f) :: t, ip := s.ip + 1 }
      | _ => .halt (emit { s with stack := t } "Type mismatch for FTOI instruction" pos)
  | .Jump l pos => doJump labels l pos s
  | .JumpEq l pos =>
    if s.flags.equal then doJumpNoHalt labels l pos s else .cont { s with ip := s.ip + 1 }
  | .JumpNotEq l pos =>
    if s.flags.not_equal then doJump labels l pos s else .cont { s with ip := s.ip + 1 }
  | .JumpGt l pos =>
    if s.flags.greater_than then doJump labels l pos s else .cont { s with ip := s.ip + 1 }
  | .JumpLt l pos =>
    if s.flags.less_than then doJump labels l pos s else .cont { s with ip := s.ip + 1 }
  | .JumpGtEq l pos =>
    if s.flags.greater_than_or_equal then doJump labels l pos s
    else .cont { s with ip := s.ip + 1 }
  | .JumpLtEq l pos =>
    if s.flags.less_than_or_equal then doJump labels l pos s
    else .cont { s with ip := s.ip + 1 }
  | .JumpZero l pos =>
    if s.flags.zero then doJump labels l pos s else .cont { s with ip := s.ip + 1 }
  | .JumpNotZero l pos =>
    if !s.flags.zero then doJumpNoHalt labels l pos s else .cont { s with ip := s.ip + 1 }
  | .JumpNeg l pos =>
    if s.flags.negative then doJumpNoHalt labels l pos s else .cont { s with ip := s.ip + 1 }
  | .Return pos =>
    match s.return_stack with
    | r :: rest =>
      if r = 0 then .panic { s with return_stack := rest }
      else .cont { s with return_stack := rest, ip := r - 1 + 1 }
    | [] => .halt (emit s "Cannot return anything from the main function!" pos)
  | .Exit _ => .halt s
  | .Cmp v pos =>
    match s.stack with
    | [] => .panic s
    | a :: t =>
      match a, v with
      | .Integer x, .Integer y =>
        .cont { s with flags := mkFlags x y, stack := a :: t, ip := s.ip + 1 }
      | .Float x, .Float y =>
        .cont { s with flags := mkFlags x y, stack := a :: t, ip := s.ip + 1 }
      | .Str x, .Str y =>
        .cont { s with flags := mkFlags x y, stack := a :: t, ip := s.ip + 1 }
      | _, _ => .halt (emit { s with stack := t } "Type mismatch for CMP instruction" pos)
  | .CmpInStack pos =>
    match s.stack with
    | a :: b :: t =>
      match a, b with
      | .Integer x, .Integer y =>
        .cont { s with flags := mkFlags x y, stack := a :: b :: t, ip := s.ip + 1 }
      | .Float x, .Float y =>
        .cont { s with flags := mkFlags x y, stack := a :: b :: t, ip := s.ip + 1 }
      | .Str x, .Str y =>
        .cont { s with flags := mkFlags x y, stack := a :: b :: t, ip := s.ip + 1 }
      | _, _ => .halt (emit { s with stack := t } "Type mismatch for SCMP instruction" pos)
    | _ => .halt (emit s "Not enough operands for SCMP instruction" pos)
  | .Label _ _ => .cont { s with ip := s.ip + 1 }
  | .Random _ =>
    match s.rands with
    | r :: rest =>
      .cont { s with stack := .Float r :: s.stack, rands := rest, ip := s.ip + 1 }
    | [] => .cont { s with stack := .Float 0 :: s.stack, ip := s.ip + 1 }
  | .Time _ =>
    .cont { s with diags := s.diags ++ [("Unimplemented instruction", "")], ip := s.ip + 1 }
  | .IToA _ =>
    .cont { s with diags := s.diags ++ [("Unimplemented instruction", "")], ip := s.ip + 1 }
  | .IToF _ =>
    .cont { s with diags := s.diags ++ [("Unimplemented instruction", "")], ip := s.ip + 1 }

/-- Result of the whole run: the loop fell off the end of the program
(`finished`), a handler executed `return` (`halted`, covering both a
diagnosed fatal error and `exit`), a Rust panic occurred (`panicked`), or
the step budget ran out (`outOfFuel`). -/
inductive ExecOutcome where
  | finished : VMState → ExecOutcome
  | halted : VMState → ExecOutcome
  | panicked : VMState → ExecOutcome
  | outOfFuel : VMState → ExecOutcome
deriving DecidableEq

/-- The `while self.ip < self.program.len()` loop, with explicit fuel. -/
def runGo (prog : List Instruction) (labels : List (String × Nat)) :
    Nat → VMState → ExecOutcome
  | 0, s => .outOfFuel s
  | fuel + 1, s =>
    if h : s.ip < prog.length then
      match execInstr labels (prog.get ⟨s.ip, h⟩) s with
      | .cont s2 => runGo prog labels fuel s2
      | .halt s2 => .halted s2
      | .panic s2 => .panicked s2
    else .finished s

/-- `StackFkVM::execute`: compile, resolve labels, then run.  Crucially, a
`compile` failure returns only from `compile`; `execute` still resolves
labels over the partial program and runs the fetch-execute loop on it, with
the compiler diagnostic already emitted.  A compile-stage panic aborts the
process before any execution. -/
def execute (symbols : List Symbol) (fuel : Nat) (input : List String)
    (rands : List Rat) : ExecOutcome :=
  match compile symbols with
  | .done prog => runGo prog (analyzeLabels prog) fuel (initState input rands [])
  | .failed prog msg pos =>
    runGo prog (analyzeLabels prog) fuel (initState input rands [(msg, pos)])
  | .panicked _ => .panicked (initState input rands [])

/-- The machine state carried by a step result. -/
def stateOfStep : StepResult → VMState
  | .cont s => s
  | .halt s => s
  | .panic s => s

/-- The machine state carried by a run outcome. -/
def stateOfOutcome : ExecOutcome → VMState
  | .finished s => s
  | .halted s => s
  | .panicked s => s
  | .outOfFuel s => s

/-- Stdout lines of a run outcome. -/
def outcomeOutput (o : ExecOutcome) : List String :=
  (stateOfOutcome o).output

/-- Final value stack of a run outcome. -/
def outcomeStack (o : ExecOutcome) : List ConstType :=
  (stateOfOutcome o).stack

/-- Diagnostics of a run outcome, in emission order. -/
def outcomeDiags (o : ExecOutcome) : List (String × String) :=
  (stateOfOutcome o).diags

/-- Whether the loop fell off the end of the program normally. -/
def isFinished : ExecOutcome → Bool
  | .finished _ => true
  | _ => false

/-- Whether a handler executed `return` (diagnosed error or `exit`). -/
def isHalted : ExecOutcome → Bool
  | .halted _ => true
  | _ => false

/-- An instruction-name symbol at position 1:1. -/
def instrSym (v : String) : Symbol :=
  { symbol_type := .Instruction, value := v, line_number := 1, column_number := 1 }

/-- An integer-literal symbol at position 1:1. -/
def intSym (v : String) : Symbol :=
  { symbol_type := .Integer, value := v, line_number := 1, column_number := 1 }

/-- A float-literal symbol at position 1:1. -/
def floatSym (v : String) : Symbol :=
  { symbol_type := .Float, value := v, line_number := 1, column_number := 1 }

/-- A string-literal symbol at position 1:1. -/
def strSym (v : String) : Symbol :=
  { symbol_type := .Str, value := v, line_number := 1, column_number := 1 }

/-- A label-definition symbol (trailing marker still attached) at 1:1. -/
def labelSym (v : String) : Symbol :=
  { symbol_type := .Label, value := v, line_number := 1, column_number := 1 }

/-- A label-reference symbol (leading marker still attached) at 1:1. -/
def refSym (v : String) : Symbol :=
  { symbol_type := .LabelReference, value := v, line_number := 1, column_number := 1 }

/-- Symbol sequence `push 5 print dup`: the compile pass fails on `dup`. -/
def dupAfterPrintSyms : List Symbol :=
  [instrSym "push", intSym "5", instrSym "print", instrSym "dup"]

/-- Symbol sequence `push 1 cmp 1 jeq @nowhere push 7`: a taken `jeq` whose
label is unknown, followed by one more instruction. -/
def jeqUnknownSyms : List Symbol :=
  [instrSym "push", intSym "1", instrSym "cmp", intSym "1",
   instrSym "jeq", refSym "@nowhere", instrSym "push", intSym "7"]

/-- Symbol sequence `push 5 dup`. -/
def pushDupSyms : List Symbol :=
  [instrSym "push", intSym "5", instrSym "dup"]

/-- Symbol sequence `time push 7`. -/
def timePushSyms : List Symbol :=
  [instrSym "time", instrSym "push", intSym "7"]

/-- Symbol sequence `cmp 5` (executed on an empty stack). -/
def cmpEmptySyms : List Symbol :=
  [instrSym "cmp", intSym "5"]

/-- Symbol sequence `push "ab" push "cd" add`. -/
def strAddSyms : List Symbol :=
  [instrSym "push", strSym "ab", instrSym "push", strSym "cd", instrSym "add"]

/-- The specification's jump round-trip example, symbol for symbol:
`jmp @L; print "skipped"; L: print "reached"; ret; print "after"`. -/
def jumpExampleSyms : List Symbol :=
  [instrSym "jmp", refSym "@L", instrSym "print", strSym "skipped",
   labelSym "L:", instrSym "print", strSym "reached", instrSym "ret",
   instrSym "print", strSym "after"]

/-- The jump round-trip example rewritten with the operand convention the
language actually has (`print` pops the stack, so each literal is pushed
first): `jmp @L; push "skipped"; print; L: push "reached"; print; ret;
push "after"; print`. -/
def jumpExampleFixedSyms : List Symbol :=
  [instrSym "jmp", refSym "@L", instrSym "push", strSym "skipped",
   instrSym "print", labelSym "L:", instrSym "push", strSym "reached",
   instrSym "print", instrSym "ret", instrSym "push", strSym "after",
   instrSym "print"]

/-- Symbol sequence `push 5 cmp "x"`: comparison literal of mismatched type. -/
def cmpMismatchSyms : List Symbol :=
  [instrSym "push", intSym "5", instrSym "cmp", strSym "x"]

/-- Symbol sequence `push 2.0 push 3 sub`: Integer on top of a Float. -/
def subMixedSyms : List Symbol :=
  [instrSym "push", floatSym "2.0", instrSym "push", intSym "3", instrSym "sub"]

/-- Symbol sequence `push 3 push 2 sub`. -/
def sub32Syms : List Symbol :=
  [instrSym "push", intSym "3", instrSym "push", intSym "2", instrSym "sub"]

/-- Symbol sequence `push 2 push 3 sub`. -/
def sub23Syms : List Symbol :=
  [instrSym "push", intSym "2", instrSym "push", intSym "3", instrSym "sub"]

/-- Symbol sequence `push 2147483647 push -1 sub`: the subtraction
2147483647 − (−1) leaves the i32 range. -/
def subOverflowSyms : List Symbol :=
  [instrSym "push", intSym "2147483647", instrSym "push", intSym "-1", instrSym "sub"]

/-- A machine state whose `equal` flag is set, as left by a satisfied `cmp`. -/
def eqFlagState : VMState :=
  { initState [] [] [] with flags := { initFlags with equal := true } }

/-- A machine state holding a single Integer 5, as left by `push 5`. -/
def oneIntState : VMState :=
  { initState [] [] [] with stack := [.Integer 5] }

/-- The invariant the flag register maintains: the `zero` flag always agrees
with `equal`, and `negative` always agrees with `less_than`, because every
comparison assigns both from the same predicate. -/
def flagsConsistent (f : Flags) : Prop :=
  f.zero = f.equal ∧ f.negative = f.less_than

/-- C1 counterexample: on `push 5; print; dup` the compile pass fails at
`dup` with a single diagnostic — yet the run still prints "5": the Execution
Engine starts on the partial program `[Push 5, Print]` and produces a
runtime effect, refuting "no instruction of the (partial) program is
executed, no runtime effect occurs". -/
theorem C1_partial_program_runs_after_compile_error :
    compile dupAfterPrintSyms =
      .failed [.Push (.Integer 5) "1:1", .Print "1:1"] "Unknown instruction: dup" "1:1" ∧
    outcomeOutput (execute dupAfterPrintSyms 10 [] []) = ["5"] ∧
    isFinished (execute dupAfterPrintSyms 10 [] []) = true := by
  decide

/-- C1 (amended): a compiler-stage failure emits exactly one diagnostic and
stops the compile pass at the offending symbol (the remaining symbols are
never consumed), but it does not prevent the Execution Engine from starting:
`execute` runs the fetch-execute loop over the partial program compiled
before the failure, which can execute instructions and produce runtime
effects (here the partial program runs to completion and prints "5"). -/
theorem C1_amended_compile_error_runs_partial_program :
    (∀ rest : List Symbol,
      compile (dupAfterPrintSyms ++ rest) =
        .failed [.Push (.Integer 5) "1:1", .Print "1:1"] "Unknown instruction: dup" "1:1") ∧
    (∀ (symbols : List Symbol) (prog : List Instruction) (msg pos : String)
        (fuel : Nat) (input : List String) (rands : List Rat),
      compile symbols = .failed prog msg pos →
      execute symbols fuel input rands =
        runGo prog (analyzeLabels prog) fuel (initState input rands [(msg, pos)])) ∧
    outcomeOutput (execute dupAfterPrintSyms 10 [] []) = ["5"] := by
  refine ⟨fun rest => rfl, ?_, by decide⟩
  intro symbols prog msg pos fuel input rands h
  simp only [execute, h]

/-- C1 witness: the general consequence applied to the concrete failing
sequence `push 5; print; dup`, with the compile-failure hypothesis
discharged by evaluation. -/
theorem C1_witness :
    execute dupAfterPrintSyms 10 [] [] =
      runGo [.Push (.Integer 5) "1:1", .Print "1:1"]
        (analyzeLabels [.Push (.Integer 5) "1:1", .Print "1:1"]) 10
        (initState [] [] [("Unknown instruction: dup", "1:1")]) :=
  C1_amended_compile_error_runs_partial_program.2.1 dupAfterPrintSyms
    [.Push (.Integer 5) "1:1", .Print "1:1"] "Unknown instruction: dup" "1:1"
    10 [] [] (by decide)

/-- C3 counterexample: `push 5; dup` does not compile — the compiler has no
arm for `dup` (nor `duplicate`), so it fails with "Unknown instruction: dup"
after having compiled only `Push 5`; the subsequent run of that partial
program leaves the stack `[5]`, not `[5, 5]`. -/
theorem C3_dup_not_recognized :
    compile pushDupSyms =
      .failed [.Push (.Integer 5) "1:1"] "Unknown instruction: dup" "1:1" ∧
    outcomeStack (execute pushDupSyms 10 [] []) = [.Integer 5] := by
  decide

/-- C3 (amended): the compiler recognizes exactly the zero-operand names
pop, add, sub, mul, div, idiv, mod, print, read, atoi, scmp, exit, ret,
rand and time, appending the corresponding instruction; the names dup,
duplicate, swap and ftoi are NOT recognized (the `Duplicate`, `Swap` and
`FToI` instructions are unreachable from the compiler), so `push 5; dup`
fails with an "Unknown instruction" diagnostic and its partial program
leaves the stack `[5]`.  The `Duplicate` handler itself is implemented:
a program `[Push 5, Duplicate]` leaves `[5, 5]` and a subsequent `Pop`
leaves `[5]`. -/
theorem C3_amended_zero_operand_opcodes :
    compile [instrSym "pop"] = .done [.Pop "1:1"] ∧
    compile [instrSym "add"] = .done [.Add "1:1"] ∧
    compile [instrSym "sub"] = .done [.Sub "1:1"] ∧
    compile [instrSym "mul"] = .done [.Mul "1:1"] ∧
    compile [instrSym "div"] = .done [.Div "1:1"] ∧
    compile [instrSym "idiv"] = .done [.IDiv "1:1"] ∧
    compile [instrSym "mod"] = .done [.Mod "1:1"] ∧
    compile [instrSym "print"] = .done [.Print "1:1"] ∧
    compile [instrSym "read"] = .done [.Read "1:1"] ∧
    compile [instrSym "atoi"] = .done [.AToI "1:1"] ∧
    compile [instrSym "scmp"] = .done [.CmpInStack "1:1"] ∧
    compile [instrSym "exit"] = .done [.Exit "1:1"] ∧
    compile [instrSym "ret"] = .done [.Return "1:1"] ∧
    compile [instrSym "rand"] = .done [.Random "1:1"] ∧
    compile [instrSym "time"] = .done [.Time "1:1"] ∧
    compile [instrSym "dup"] = .failed [] "Unknown instruction: dup" "1:1" ∧
    compile [instrSym "duplicate"] = .failed [] "Unknown instruction: duplicate" "1:1" ∧
    compile [instrSym "swap"] = .failed [] "Unknown instruction: swap" "1:1" ∧
    compile [instrSym "ftoi"] = .failed [] "Unknown instruction: ftoi" "1:1" ∧
    outcomeStack (execute pushDupSyms 10 [] []) = [.Integer 5] ∧
    outcomeStack
        (runGo [.Push (.Integer 5) "1:1", .Duplicate "1:1"] [] 10 (initState [] [] [])) =
      [.Integer 5, .Integer 5] ∧
    outcomeStack
        (runGo [.Push (.Integer 5) "1:1", .Duplicate "1:1", .Pop "1:1"] [] 10
          (initState [] [] [])) =
      [.Integer 5] := by
  decide

/-- C4 counterexample: executing `time; push 7` emits the generic
"Unimplemented instruction" diagnostic for `time` but the run does NOT
stop: the following `push 7` executes and the loop finishes normally with
`[7]` on the stack, refuting "the run stops, executing no further
instructions". -/
theorem C4_unimplemented_does_not_stop :
    outcomeDiags (execute timePushSyms 10 [] []) = [("Unimplemented instruction", "")] ∧
    outcomeStack (execute timePushSyms 10 [] []) = [.Integer 7] ∧
    isFinished (execute timePushSyms 10 [] []) = true := by
  decide

/-- C4 (amended): executing a declared-but-unimplemented instruction such as
`time` emits the generic "Unimplemented instruction" diagnostic (with an
empty position) and execution CONTINUES with the next instruction — the
catch-all arm of the dispatch has no early return. -/
theorem C4_amended_unimplemented_continues :
    (∀ (labels : List (String × Nat)) (s : VMState) (p : String),
      execInstr labels (.Time p) s =
        .cont { s with diags := s.diags ++ [("Unimplemented instruction", "")], ip := s.ip + 1 }) ∧
    outcomeStack (execute timePushSyms 10 [] []) = [.Integer 7] ∧
    isFinished (execute timePushSyms 10 [] []) = true := by
  refine ⟨fun labels s p => rfl, by decide, by decide⟩

/-- C5: the claim (and §7 of the spec) is right and the code is wrong: the
`Cmp` handler pops with `self.stack.pop().unwrap()` and no emptiness check,
so executing `cmp 5` on an empty stack is an undiagnosed panic — the run
aborts with no diagnostic emitted, unlike every other stack underflow. -/
theorem C5_cmp_underflow_is_undiagnosed_panic :
    execute cmpEmptySyms 10 [] [] = .panicked (initState [] [] []) ∧
    outcomeDiags (execute cmpEmptySyms 10 [] []) = [] ∧
    (∀ (labels : List (String × Nat)) (v : ConstType) (p : String) (s : VMState),
      s.stack = [] → execInstr labels (.Cmp v p) s = .panic s) := by
  refine ⟨by decide, by decide, ?_⟩
  intro labels v p s hs
  simp [execInstr, hs]

/-- C5 witness: the general panic statement applied at the concrete initial
state, its empty-stack hypothesis discharged by evaluation. -/
theorem C5_witness :
    execInstr [] (.Cmp (.Integer 5) "1:1") (initState [] [] []) =
      .panic (initState [] [] []) :=
  C5_cmp_underflow_is_undiagnosed_panic.2.2 [] (.Integer 5) "1:1" (initState [] [] []) rfl

/-- C6 counterexample: `push "ab"; push "cd"; add` leaves the single value
String "abcd" — the handler computes `b + &a` with `a` the popped top
("cd") and `b` the next value ("ab") — not the String "cdab" the claim
states. -/
theorem C6_string_add_gives_abcd :
    outcomeStack (execute strAddSyms 10 [] []) = [.Str "abcd"] ∧
    ConstType.Str "abcd" ≠ ConstType.Str "cdab" := by
  decide

/-- C6 (amended): string `add` concatenates the earlier-pushed operand `b`
followed by the popped top `a`, so `push "ab"; push "cd"; add` leaves
exactly one value, String "abcd". -/
theorem C6_amended_string_add :
    (∀ (labels : List (String × Nat)) (p : String) (s : VMState)
        (x y : String) (t2 : List ConstType),
      s.stack = .Str x :: .Str y :: t2 →
      execInstr labels (.Add p) s =
        .cont { s with stack := .Str (y ++ x) :: t2, ip := s.ip + 1 }) ∧
    outcomeStack (execute strAddSyms 10 [] []) = [.Str "abcd"] := by
  refine ⟨?_, by decide⟩
  intro labels p s x y t2 hs
  simp [execInstr, hs]

/-- C6 witness: the general concatenation statement applied to the stack
`["cd", "ab"]`, its stack-shape hypothesis discharged by evaluation. -/
theorem C6_witness :
    execInstr [] (.Add "1:1") { initState [] [] [] with stack := [.Str "cd", .Str "ab"] } =
      .cont { initState [] [] [] with stack := [.Str "abcd"], ip := 1 } :=
  C6_amended_string_add.1 [] "1:1"
    { initState [] [] [] with stack := [.Str "cd", .Str "ab"] } "cd" "ab" [] rfl

/-- C2 counterexample: `push 1; cmp 1; jeq @nowhere; push 7` — the `jeq` is
taken (equal flag set) and its label is unknown: the "Unknown label"
diagnostic is emitted, yet execution does NOT halt: the following `push 7`
executes and the loop finishes normally, refuting "execution halts
immediately, with no further instruction executed" for the jeq variant. -/
theorem C2_jeq_unknown_label_falls_through :
    outcomeDiags (execute jeqUnknownSyms 10 [] []) = [("Unknown label: nowhere", "1:1")] ∧
    outcomeStack (execute jeqUnknownSyms 10 [] []) = [.Integer 7, .Integer 1] ∧
    isFinished (execute jeqUnknownSyms 10 [] []) = true := by
  decide

/-- C2 (amended): a taken jump to an unknown label always emits exactly one
"Unknown label" diagnostic, but only `jmp`, `jne`, `jgt`, `jlt`, `jge`,
`jle` and `jz` then halt the run; the `jeq`, `jnz` and `jneg` handlers lack
the early return and fall through, continuing with the next instruction. -/
theorem C2_amended_unknown_label_by_variant :
    ∀ (labels : List (String × Nat)) (s : VMState) (l p : String),
      lookupLabel labels l = none →
      (execInstr labels (.Jump l p) s = .halt (emit s ("Unknown label: " ++ l) p)) ∧
      (s.flags.equal = true →
        execInstr labels (.JumpEq l p) s =
          .cont { emit s ("Unknown label: " ++ l) p with ip := s.ip + 1 }) ∧
      (s.flags.not_equal = true →
        execInstr labels (.JumpNotEq l p) s = .halt (emit s ("Unknown label: " ++ l) p)) ∧
      (s.flags.greater_than = true →
        execInstr labels (.JumpGt l p) s = .halt (emit s ("Unknown label: " ++ l) p)) ∧
      (s.flags.less_than = true →
        execInstr labels (.JumpLt l p) s = .halt (emit s ("Unknown label: " ++ l) p)) ∧
      (s.flags.greater_than_or_equal = true →
        execInstr labels (.JumpGtEq l p) s = .halt (emit s ("Unknown label: " ++ l) p)) ∧
      (s.flags.less_than_or_equal = true →
        execInstr labels (.JumpLtEq l p) s = .halt (emit s ("Unknown label: " ++ l) p)) ∧
      (s.flags.zero = true →
        execInstr labels (.JumpZero l p) s = .halt (emit s ("Unknown label: " ++ l) p)) ∧
      (s.flags.zero = false →
        execInstr labels (.JumpNotZero l p) s =
          .cont { emit s ("Unknown label: " ++ l) p with ip := s.ip + 1 }) ∧
      (s.flags.negative = true →
        execInstr labels (.JumpNeg l p) s =
          .cont { emit s ("Unknown label: " ++ l) p with ip := s.ip + 1 }) := by
  intro labels s l p h
  refine ⟨?_, ?_, ?_, ?_, ?_, ?_, ?_, ?_, ?_, ?_⟩
  · simp [execInstr, doJump, h]
  · intro hf; simp [execInstr, doJumpNoHalt, h, hf]
  · intro hf; simp [execInstr, doJump, h, hf]
  · intro hf; simp [execInstr, doJump, h, hf]
  · intro hf; simp [execInstr, doJump, h, hf]
  · intro hf; simp [execInstr, doJump, h, hf]
  · intro hf; simp [execInstr, doJump, h, hf]
  · intro hf; simp [execInstr, doJump, h, hf]
  · intro hf; simp [execInstr, doJumpNoHalt, h, hf]
  · intro hf; simp [execInstr, doJumpNoHalt, h, hf]

/-- C2 witness: the fall-through jeq conjunct applied at a concrete state
whose equal flag is set, with both hypotheses discharged by evaluation. -/
theorem C2_witness :
    execInstr [] (.JumpEq "x" "1:1") eqFlagState =
      .cont { emit eqFlagState ("Unknown label: " ++ "x") "1:1" with ip := eqFlagState.ip + 1 } :=
  (C2_amended_unknown_label_by_variant [] eqFlagState "x" "1:1" rfl).2.1 rfl

/-- C7 counterexample: the spec's example program
`jmp @L; print "skipped"; L: print "reached"; ret; print "after"`, taken
symbol for symbol, prints nothing at all: `print` takes no operand in this
language, so the string literal after it is a malformed operand placement —
the compile pass fails there, and the partial program `[Jump "L", Print]`
then fatally hits an unknown label (the Label instruction was never
compiled).  The output is therefore `[]`, never "reached" then "after". -/
theorem C7_spec_example_prints_nothing :
    outcomeOutput (execute jumpExampleSyms 20 [] []) = [] ∧
    isHalted (execute jumpExampleSyms 20 [] []) = true ∧
    outcomeDiags (execute jumpExampleSyms 20 [] []) =
      [("Unexpected string literal: skipped", "1:1"), ("Unknown label: L", "1:1")] := by
  decide

/-- C7 (amended): every taken jump pushes `ip + 1` (the index after the
jump) onto the return-address stack before transferring control to the
label's resolved index (the loop's trailing increment then lands just past
the Label no-op), and `return` pops that stack and resumes exactly at the
saved index — just after the call site.  Precisely because of this, the
spec's round-trip example cannot behave as stated: its operand-corrected
form `jmp @L; push "skipped"; print; L: push "reached"; print; ret;
push "after"; print` prints "reached", then "skipped" (the `ret` resumes at
the instruction after the jump, which IS the skipped branch), then
"reached" again, and halts on the second `ret` with an empty return stack. -/
theorem C7_amended_jump_as_call :
    (∀ (labels : List (String × Nat)) (s : VMState) (l p : String) (t : Nat),
      lookupLabel labels l = some t →
      execInstr labels (.Jump l p) s =
        .cont { s with return_stack := (s.ip + 1) :: s.return_stack, ip := t + 1 }) ∧
    (∀ (labels : List (String × Nat)) (s : VMState) (p : String) (r : Nat)
        (rest : List Nat),
      s.return_stack = r :: rest → 1 ≤ r →
      execInstr labels (.Return p) s =
        .cont { s with return_stack := rest, ip := r }) ∧
    outcomeOutput (execute jumpExampleFixedSyms 30 [] []) =
      ["reached", "skipped", "reached"] ∧
    outcomeDiags (execute jumpExampleFixedSyms 30 [] []) =
      [("Cannot return anything from the main function!", "1:1")] := by
  refine ⟨?_, ?_, by decide, by decide⟩
  · intro labels s l p t ht
    simp [execInstr, doJump, ht]
  · intro labels s p r rest hrs hr
    simp only [execInstr, hrs]
    rw [if_neg (by omega)]
    have h2 : r - 1 + 1 = r := by omega
    rw [h2]

/-- C7 witness: the jump and return conjuncts applied at concrete states,
their label-resolution and return-stack hypotheses discharged by
evaluation. -/
theorem C7_witness :
    (execInstr [("L", 0)] (.Jump "L" "1:1") (initState [] [] []) =
      .cont { initState [] [] [] with return_stack := [1], ip := 1 }) ∧
    (execInstr [] (.Return "1:1") { initState [] [] [] with return_stack := [5] } =
      .cont { initState [] [] [] with return_stack := [], ip := 5 }) :=
  ⟨C7_amended_jump_as_call.1 [("L", 0)] (initState [] [] []) "L" "1:1" 0 (by decide),
   C7_amended_jump_as_call.2.1 [] { initState [] [] [] with return_stack := [5] }
     "1:1" 5 [] rfl (by decide)⟩

/-- C8 counterexample: executing `cmp` with a mismatched-type literal is an
execution of cmp that changes the stack: on the state holding `[Integer 5]`
(depth 1) the handler pops 5, hits the type-mismatch arm and halts WITHOUT
pushing the value back — the final stack is `[]` (depth 0).  The compiled
run `push 5; cmp "x"` confirms it end to end. -/
theorem C8_cmp_mismatch_shrinks_stack :
    execInstr [] (.Cmp (.Str "x") "1:1") oneIntState =
      .halt (emit { oneIntState with stack := [] } "Type mismatch for CMP instruction" "1:1") ∧
    oneIntState.stack.length = 1 ∧
    (emit { oneIntState with stack := [] } "Type mismatch for CMP instruction" "1:1").stack.length = 0 ∧
    isHalted (execute cmpMismatchSyms 10 [] []) = true ∧
    outcomeStack (execute cmpMismatchSyms 10 [] []) = [] := by
  decide

/-- C8 (amended): whenever a `cmp` or `scmp` completes without a fatal
diagnostic (the step continues), the value stack is unchanged — cmp pushes
the popped value back, scmp pushes both back in their original order; but
on a type mismatch the instruction halts the run with the popped value(s)
not restored, and cmp on an empty stack panics undiagnosed. -/
theorem C8_amended_nonfatal_cmp_scmp_preserve_stack :
    (∀ (labels : List (String × Nat)) (v : ConstType) (p : String) (s s2 : VMState),
      execInstr labels (.Cmp v p) s = .cont s2 → s2.stack = s.stack) ∧
    (∀ (labels : List (String × Nat)) (p : String) (s s2 : VMState),
      execInstr labels (.CmpInStack p) s = .cont s2 → s2.stack = s.stack) := by
  constructor
  · intro labels v p s s2 h
    simp only [execInstr] at h
    rcases hs : s.stack with _ | ⟨a, t⟩ <;> rw [hs] at h
    · simp at h
    · cases a <;> cases v <;> simp at h <;> (try subst s2) <;> simp [hs]
  · intro labels p s s2 h
    simp only [execInstr] at h
    rcases hs : s.stack with _ | ⟨a, _ | ⟨b, t⟩⟩ <;> rw [hs] at h
    · simp at h
    · simp at h
    · cases a <;> cases b <;> simp at h <;> (try subst s2) <;> simp [hs]

/-- C8 witness: the cmp conjunct applied at a concrete state holding one
Integer, its completes-without-diagnostic hypothesis discharged by
evaluation. -/
theorem C8_witness :
    ({ initState [] [] [] with
        flags := mkFlags (1 : Int) 1
        stack := [ConstType.Integer 1]
        ip := 1 } : VMState).stack =
      ({ initState [] [] [] with stack := [ConstType.Integer 1] } : VMState).stack :=
  C8_amended_nonfatal_cmp_scmp_preserve_stack.1 [] (.Integer 1) "1:1"
    { initState [] [] [] with stack := [ConstType.Integer 1] }
    { initState [] [] [] with
      flags := mkFlags (1 : Int) 1
      stack := [ConstType.Integer 1]
      ip := 1 } (by decide)

/-- C9 counterexample: `push 2.0; push 3; sub` pops `a = Integer 3` (top)
and `b = Float 2.0`, and the mismatched-type arm of the Sub handler
computes `a as f32 - b`, i.e. `a − b = 1.0`, NOT `b OP a = 2.0 − 3 = −1.0`
as the claim states for every binary arithmetic instruction; the run leaves
`[Float 1]`, which differs from the claim's predicted `[Float (−1)]`. -/
theorem C9_sub_int_over_float_wrong_order :
    outcomeStack (execute subMixedSyms 10 [] []) = [.Float 1] ∧
    ConstType.Float 1 ≠ ConstType.Float (-1) := by
  constructor
  · have h1 : outcomeStack (execute subMixedSyms 10 [] []) =
        [.Float (((3 : Int) : Rat) -
          (((2 : Nat) : Rat) + ((0 : Nat) : Rat) / (10 : Rat) ^ 1))] := rfl
    rw [h1]
    simp only [List.cons.injEq, ConstType.Float.injEq, and_true]
    norm_num
  · simp only [ne_eq, ConstType.Float.injEq]
    norm_num

/-- C9 (amended): for every binary arithmetic instruction and every type
pairing it accepts, the popped top value is the right operand `a` and the
next value is the left operand `b`, and every produced result is `b OP a` —
EXCEPT the sub handler's (Integer top, Float below) arm, which computes
`a as f32 - b`, i.e. `a − b`.  On Integer∘Integer the result is produced
exactly when it lies in the i32 range (otherwise the build's checked
arithmetic panics; div/idiv/mod panic on a zero divisor or on
i32::MIN ÷ −1); the float arms are stated in the exact-rational f32 model
and, for div/idiv/mod, under a nonzero divisor, the model's faithful
domain.  In particular `push 3; push 2; sub` yields Integer 1,
`push 2; push 3; sub` yields Integer −1, `push 2.0; push 3; sub` yields
Float 1 instead of Float −1, and `push 2147483647; push -1; sub` panics on
overflow. -/
theorem C9_amended_operand_order :
    (∀ (labels : List (String × Nat)) (p : String) (s : VMState) (x y : Int)
        (t2 : List ConstType),
      s.stack = .Integer x :: .Integer y :: t2 →
      (-(2 ^ 31) ≤ y + x ∧ y + x < 2 ^ 31 →
        execInstr labels (.Add p) s =
          .cont { s with stack := .Integer (y + x) :: t2, ip := s.ip + 1 }) ∧
      (¬(-(2 ^ 31) ≤ y + x ∧ y + x < 2 ^ 31) →
        execInstr labels (.Add p) s = .panic { s with stack := t2 })) ∧
    (∀ (labels : List (String × Nat)) (p : String) (s : VMState) (x y : Rat)
        (t2 : List ConstType),
      s.stack = .Float x :: .Float y :: t2 →
      execInstr labels (.Add p) s =
        .cont { s with stack := .Float (y + x) :: t2, ip := s.ip + 1 }) ∧
    (∀ (labels : List (String × Nat)) (p : String) (s : VMState) (x : Rat)
        (y : Int) (t2 : List ConstType),
      s.stack = .Float x :: .Integer y :: t2 →
      execInstr labels (.Add p) s =
        .cont { s with stack := .Float ((y : Rat) + x) :: t2, ip := s.ip + 1 }) ∧
    (∀ (labels : List (String × Nat)) (p : String) (s : VMState) (x : Int)
        (y : Rat) (t2 : List ConstType),
      s.stack = .Integer x :: .Float y :: t2 →
      execInstr labels (.Add p) s =
        .cont { s with stack := .Float (y + (x : Rat)) :: t2, ip := s.ip + 1 }) ∧
    (∀ (labels : List (String × Nat)) (p : String) (s : VMState) (x y : String)
        (t2 : List ConstType),
      s.stack = .Str x :: .Str y :: t2 →
      execInstr labels (.Add p) s =
        .cont { s with stack := .Str (y ++ x) :: t2, ip := s.ip + 1 }) ∧
    (∀ (labels : List (String × Nat)) (p : String) (s : VMState) (x y : Int)
        (t2 : List ConstType),
      s.stack = .Integer x :: .Integer y :: t2 →
      (-(2 ^ 31) ≤ y - x ∧ y - x < 2 ^ 31 →
        execInstr labels (.Sub p) s =
          .cont { s with stack := .Integer (y - x) :: t2, ip := s.ip + 1 }) ∧
      (¬(-(2 ^ 31) ≤ y - x ∧ y - x < 2 ^ 31) →
        execInstr labels (.Sub p) s = .panic { s with stack := t2 })) ∧
    (∀ (labels : List (String × Nat)) (p : String) (s : VMState) (x y : Rat)
        (t2 : List ConstType),
      s.stack = .Float x :: .Float y :: t2 →
      execInstr labels (.Sub p) s =
        .cont { s with stack := .Float (y - x) :: t2, ip := s.ip + 1 }) ∧
    (∀ (labels : List (String × Nat)) (p : String) (s : VMState) (x : Rat)
        (y : Int) (t2 : List ConstType),
      s.stack = .Float x :: .Integer y :: t2 →
      execInstr labels (.Sub p) s =
        .cont { s with stack := .Float ((y : Rat) - x) :: t2, ip := s.ip + 1 }) ∧
    (∀ (labels : List (String × Nat)) (p : String) (s : VMState) (x : Int)
        (y : Rat) (t2 : List ConstType),
      s.stack = .Integer x :: .Float y :: t2 →
      execInstr labels (.Sub p) s =
        .cont { s with stack := .Float ((x : Rat) - y) :: t2, ip := s.ip + 1 }) ∧
    (∀ (labels : List (String × Nat)) (p : String) (s : VMState) (x y : Int)
        (t2 : List ConstType),
      s.stack = .Integer x :: .Integer y :: t2 →
      (-(2 ^ 31) ≤ y * x ∧ y * x < 2 ^ 31 →
        execInstr labels (.Mul p) s =
          .cont { s with stack := .Integer (y * x) :: t2, ip := s.ip + 1 }) ∧
      (¬(-(2 ^ 31) ≤ y * x ∧ y * x < 2 ^ 31) →
        execInstr labels (.Mul p) s = .panic { s with stack := t2 })) ∧
    (∀ (labels : List (String × Nat)) (p : String) (s : VMState) (x y : Rat)
        (t2 : List ConstType),
      s.stack = .Float x :: .Float y :: t2 →
      execInstr labels (.Mul p) s =
        .cont { s with stack := .Float (y * x) :: t2, ip := s.ip + 1 }) ∧
    (∀ (labels : List (String × Nat)) (p : String) (s : VMState) (x : Rat)
        (y : Int) (t2 : List ConstType),
      s.stack = .Float x :: .Integer y :: t2 →
      execInstr labels (.Mul p) s =
        .cont { s with stack := .Float ((y : Rat) * x) :: t2, ip := s.ip + 1 }) ∧
    (∀ (labels : List (String × Nat)) (p : String) (s : VMState) (x : Int)
        (y : Rat) (t2 : List ConstType),
      s.stack = .Integer x :: .Float y :: t2 →
      execInstr labels (.Mul p) s =
        .cont { s with stack := .Float (y * (x : Rat)) :: t2, ip := s.ip + 1 }) ∧
    (∀ (labels : List (String × Nat)) (p : String) (s : VMState) (x y : Int)
        (t2 : List ConstType),
      s.stack = .Integer x :: .Integer y :: t2 →
      (¬(x = 0 ∨ (y = -(2 ^ 31) ∧ x = -1)) →
        execInstr labels (.Div p) s =
          .cont { s with stack := .Integer (Int.tdiv y x) :: t2, ip := s.ip + 1 }) ∧
      (x = 0 ∨ (y = -(2 ^ 31) ∧ x = -1) →
        execInstr labels (.Div p) s = .panic { s with stack := t2 })) ∧
    (∀ (labels : List (String × Nat)) (p : String) (s : VMState) (x y : Rat)
        (t2 : List ConstType),
      s.stack = .Float x :: .Float y :: t2 → x ≠ 0 →
      execInstr labels (.Div p) s =
        .cont { s with stack := .Float (y / x) :: t2, ip := s.ip + 1 }) ∧
    (∀ (labels : List (String × Nat)) (p : String) (s : VMState) (x : Rat)
        (y : Int) (t2 : List ConstType),
      s.stack = .Float x :: .Integer y :: t2 → x ≠ 0 →
      execInstr labels (.Div p) s =
        .cont { s with stack := .Float ((y : Rat) / x) :: t2, ip := s.ip + 1 }) ∧
    (∀ (labels : List (String × Nat)) (p : String) (s : VMState) (x : Int)
        (y : Rat) (t2 : List ConstType),
      s.stack = .Integer x :: .Float y :: t2 → x ≠ 0 →
      execInstr labels (.Div p) s =
        .cont { s with stack := .Float (y / (x : Rat)) :: t2, ip := s.ip + 1 }) ∧
    (∀ (labels : List (String × Nat)) (p : String) (s : VMState) (x y : Int)
        (t2 : List ConstType),
      s.stack = .Integer x :: .Integer y :: t2 →
      (¬(x = 0 ∨ (y = -(2 ^ 31) ∧ x = -1)) →
        execInstr labels (.IDiv p) s =
          .cont { s with stack := .Integer (Int.tdiv y x) :: t2, ip := s.ip + 1 }) ∧
      (x = 0 ∨ (y = -(2 ^ 31) ∧ x = -1) →
        execInstr labels (.IDiv p) s = .panic { s with stack := t2 })) ∧
    (∀ (labels : List (String × Nat)) (p : String) (s : VMState) (x y : Rat)
        (t2 : List ConstType),
      s.stack = .Float x :: .Float y :: t2 → x ≠ 0 →
      execInstr labels (.IDiv p) s =
        .cont { s with stack := .Integer ⌊y / x⌋ :: t2, ip := s.ip + 1 }) ∧
    (∀ (labels : List (String × Nat)) (p : String) (s : VMState) (x : Rat)
        (y : Int) (t2 : List ConstType),
      s.stack = .Float x :: .Integer y :: t2 → x ≠ 0 →
      execInstr labels (.IDiv p) s =
        .cont { s with stack := .Integer ⌊(y : Rat) / x⌋ :: t2, ip := s.ip + 1 }) ∧
    (∀ (labels : List (String × Nat)) (p : String) (s : VMState) (x : Int)
        (y : Rat) (t2 : List ConstType),
      s.stack = .Integer x :: .Float y :: t2 → x ≠ 0 →
      execInstr labels (.IDiv p) s =
        .cont { s with stack := .Integer ⌊y / (x : Rat)⌋ :: t2, ip := s.ip + 1 }) ∧
    (∀ (labels : List (String × Nat)) (p : String) (s : VMState) (x y : Int)
        (t2 : List ConstType),
      s.stack = .Integer x :: .Integer y :: t2 →
      (¬(x = 0 ∨ (y = -(2 ^ 31) ∧ x = -1)) →
        execInstr labels (.Mod p) s =
          .cont { s with stack := .Integer (Int.tmod y x) :: t2, ip := s.ip + 1 }) ∧
      (x = 0 ∨ (y = -(2 ^ 31) ∧ x = -1) →
        execInstr labels (.Mod p) s = .panic { s with stack := t2 })) ∧
    (∀ (labels : List (String × Nat)) (p : String) (s : VMState) (x y : Rat)
        (t2 : List ConstType),
      s.stack = .Float x :: .Float y :: t2 → x ≠ 0 →
      execInstr labels (.Mod p) s =
        .cont { s with stack := .Float (y - x * (ratTrunc (y / x) : Rat)) :: t2, ip := s.ip + 1 }) ∧
    (∀ (labels : List (String × Nat)) (p : String) (s : VMState) (x : Rat)
        (y : Int) (t2 : List ConstType),
      s.stack = .Float x :: .Integer y :: t2 → x ≠ 0 →
      execInstr labels (.Mod p) s =
        .cont { s with
          stack := .Float ((y : Rat) - x * (ratTrunc ((y : Rat) / x) : Rat)) :: t2
          ip := s.ip + 1 }) ∧
    (∀ (labels : List (String × Nat)) (p : String) (s : VMState) (x : Int)
        (y : Rat) (t2 : List ConstType),
      s.stack = .Integer x :: .Float y :: t2 → x ≠ 0 →
      execInstr labels (.Mod p) s =
        .cont { s with
          stack := .Float (y - (x : Rat) * (ratTrunc (y / (x : Rat)) : Rat)) :: t2
          ip := s.ip + 1 }) ∧
    outcomeStack (execute sub32Syms 10 [] []) = [.Integer 1] ∧
    outcomeStack (execute sub23Syms 10 [] []) = [.Integer (-1)] ∧
    outcomeStack (execute subMixedSyms 10 [] []) = [.Float 1] ∧
    execute subOverflowSyms 10 [] [] = .panicked { initState [] [] [] with ip := 2 } := by
  refine ⟨?_, ?_, ?_, ?_, ?_, ?_, ?_, ?_, ?_, ?_, ?_, ?_, ?_, ?_, ?_, ?_, ?_, ?_, ?_,
    ?_, ?_, ?_, ?_, ?_, ?_, by decide, by decide, ?_, by decide⟩
  · intro labels p s x y t2 hs
    constructor
    · intro hr
      simp only [execInstr, hs]
      rw [Int.add_comm x y, if_pos hr]
    · intro hr
      simp only [execInstr, hs]
      rw [Int.add_comm x y, if_neg hr]
  · intro labels p s x y t2 hs
    simp only [execInstr, hs]
    rw [add_comm x y]
  · intro labels p s x y t2 hs
    simp only [execInstr, hs]
    rw [add_comm x (y : Rat)]
  · intro labels p s x y t2 hs
    simp only [execInstr, hs]
    rw [add_comm (x : Rat) y]
  · intro labels p s x y t2 hs
    simp [execInstr, hs]
  · intro labels p s x y t2 hs
    constructor
    · intro hr
      simp only [execInstr, hs]
      rw [if_pos hr]
    · intro hr
      simp only [execInstr, hs]
      rw [if_neg hr]
  · intro labels p s x y t2 hs
    simp [execInstr, hs]
  · intro labels p s x y t2 hs
    simp [execInstr, hs]
  · intro labels p s x y t2 hs
    simp [execInstr, hs]
  · intro labels p s x y t2 hs
    constructor
    · intro hr
      simp only [execInstr, hs]
      rw [Int.mul_comm x y, if_pos hr]
    · intro hr
      simp only [execInstr, hs]
      rw [Int.mul_comm x y, if_neg hr]
  · intro labels p s x y t2 hs
    simp only [execInstr, hs]
    rw [mul_comm x y]
  · intro labels p s x y t2 hs
    simp only [execInstr, hs]
    rw [mul_comm x (y : Rat)]
  · intro labels p s x y t2 hs
    simp only [execInstr, hs]
    rw [mul_comm (x : Rat) y]
  · intro labels p s x y t2 hs
    constructor
    · intro hr
      simp only [execInstr, hs]
      rw [if_neg hr]
    · intro hr
      simp only [execInstr, hs]
      rw [if_pos hr]
  · intro labels p s x y t2 hs _hx
    simp [execInstr, hs]
  · intro labels p s x y t2 hs _hx
    simp [execInstr, hs]
  · intro labels p s x y t2 hs _hx
    simp [execInstr, hs]
  · intro labels p s x y t2 hs
    constructor
    · intro hr
      simp only [execInstr, hs]
      rw [if_neg hr]
    · intro hr
      simp only [execInstr, hs]
      rw [if_pos hr]
  · intro labels p s x y t2 hs _hx
    simp [execInstr, hs]
  · intro labels p s x y t2 hs _hx
    simp [execInstr, hs]
  · intro labels p s x y t2 hs _hx
    simp [execInstr, hs]
  · intro labels p s x y t2 hs
    constructor
    · intro hr
      simp only [execInstr, hs]
      rw [if_neg hr]
    · intro hr
      simp only [execInstr, hs]
      rw [if_pos hr]
  · intro labels p s x y t2 hs _hx
    simp [execInstr, hs]
  · intro labels p s x y t2 hs _hx
    simp [execInstr, hs]
  · intro labels p s x y t2 hs _hx
    simp [execInstr, hs]
  · have h1 : outcomeStack (execute subMixedSyms 10 [] []) =
        [.Float (((3 : Int) : Rat) -
          (((2 : Nat) : Rat) + ((0 : Nat) : Rat) / (10 : Rat) ^ 1))] := rfl
    rw [h1]
    simp only [List.cons.injEq, ConstType.Float.injEq, and_true]
    norm_num

/-- C9 witness: the Div Integer∘Integer conjunct applied at a concrete state
with stack `[Integer 2, Integer 6]`, its stack-shape and no-panic-condition
hypotheses discharged by evaluation. -/
theorem C9_witness :
    execInstr [] (.Div "1:1") { initState [] [] [] with stack := [.Integer 2, .Integer 6] } =
      .cont { initState [] [] [] with stack := [.Integer 3], ip := 1 } :=
  ((C9_amended_operand_order.2.2.2.2.2.2.2.2.2.2.2.2.2.1 [] "1:1"
    { initState [] [] [] with stack := [.Integer 2, .Integer 6] } 2 6 [] rfl).1
    (by decide))

/-- Every single step preserves the flag-register invariant: only `cmp` and
`scmp` write the flags, and they assign `zero`/`equal` and
`negative`/`less_than` from the same predicates. -/
theorem execInstr_preserves_flagsConsistent (labels : List (String × Nat))
    (ins : Instruction) (s : VMState) (h : flagsConsistent s.flags) :
    flagsConsistent (stateOfStep (execInstr labels ins s)).flags := by
  cases ins <;>
    simp only [execInstr, doJump, doJumpNoHalt] <;>
    (repeat' split) <;>
    first
      | exact h
      | exact ⟨rfl, rfl⟩

/-- The fetch-execute loop preserves the flag-register invariant, whatever
outcome it ends in. -/
theorem runGo_preserves_flagsConsistent (prog : List Instruction)
    (labels : List (String × Nat)) :
    ∀ (fuel : Nat) (s : VMState), flagsConsistent s.flags →
      flagsConsistent (stateOfOutcome (runGo prog labels fuel s)).flags := by
  intro fuel
  induction fuel with
  | zero => exact fun s h => h
  | succ n ih =>
    intro s h
    rw [runGo]
    split
    · rename_i hlt
      cases hstep : execInstr labels (prog.get ⟨s.ip, hlt⟩) s with
      | cont s2 =>
        have h2 := execInstr_preserves_flagsConsistent labels (prog.get ⟨s.ip, hlt⟩) s h
        rw [hstep] at h2
        exact ih s2 h2
      | halt s2 =>
        have h2 := execInstr_preserves_flagsConsistent labels (prog.get ⟨s.ip, hlt⟩) s h
        rw [hstep] at h2
        exact h2
      | panic s2 =>
        have h2 := execInstr_preserves_flagsConsistent labels (prog.get ⟨s.ip, hlt⟩) s h
        rw [hstep] at h2
        exact h2
    · exact h

/-- Every whole run maintains the flag-register invariant, starting from the
all-false flags of `StackFkVM::new`. -/
theorem execute_flagsConsistent (symbols : List Symbol) (fuel : Nat)
    (input : List String) (rands : List Rat) :
    flagsConsistent (stateOfOutcome (execute symbols fuel input rands)).flags := by
  rw [execute]
  cases hcp : compile symbols with
  | done prog => exact runGo_preserves_flagsConsistent prog _ fuel _ ⟨rfl, rfl⟩
  | failed prog msg pos => exact runGo_preserves_flagsConsistent prog _ fuel _ ⟨rfl, rfl⟩
  | panicked prog => exact ⟨rfl, rfl⟩

/-- C10: at machine creation all eight flags are false; every instruction
(in particular every `cmp`/`scmp` for every type pairing) preserves the
invariant that `zero` equals `equal` and `negative` equals `less_than`, so
it holds of every state any run can end in; consequently, on a resolvable
label `jz` and `jeq` behave identically under the invariant, as do `jneg`
and `jlt`; and before the first comparison (flags as at creation) every
conditional jump except `jnz` is a no-op advancing ip, while `jnz` always
takes its jump. -/
theorem C10_flag_invariant :
    (initFlags.zero = false ∧ initFlags.negative = false ∧ initFlags.equal = false ∧
     initFlags.not_equal = false ∧ initFlags.greater_than = false ∧
     initFlags.less_than = false ∧ initFlags.greater_than_or_equal = false ∧
     initFlags.less_than_or_equal = false) ∧
    (∀ (labels : List (String × Nat)) (ins : Instruction) (s : VMState),
      flagsConsistent s.flags →
      flagsConsistent (stateOfStep (execInstr labels ins s)).flags) ∧
    (∀ (prog : List Instruction) (labels : List (String × Nat)) (fuel : Nat)
        (s : VMState),
      flagsConsistent s.flags →
      flagsConsistent (stateOfOutcome (runGo prog labels fuel s)).flags) ∧
    (∀ (symbols : List Symbol) (fuel : Nat) (input : List String) (rands : List Rat),
      flagsConsistent (stateOfOutcome (execute symbols fuel input rands)).flags) ∧
    (∀ (labels : List (String × Nat)) (s : VMState) (l p : String) (t : Nat),
      lookupLabel labels l = some t → flagsConsistent s.flags →
      (execInstr labels (.JumpZero l p) s = execInstr labels (.JumpEq l p) s) ∧
      (execInstr labels (.JumpNeg l p) s = execInstr labels (.JumpLt l p) s)) ∧
    (∀ (labels : List (String × Nat)) (s : VMState) (l p : String),
      s.flags = initFlags →
      (execInstr labels (.JumpEq l p) s = .cont { s with ip := s.ip + 1 }) ∧
      (execInstr labels (.JumpNotEq l p) s = .cont { s with ip := s.ip + 1 }) ∧
      (execInstr labels (.JumpGt l p) s = .cont { s with ip := s.ip + 1 }) ∧
      (execInstr labels (.JumpLt l p) s = .cont { s with ip := s.ip + 1 }) ∧
      (execInstr labels (.JumpGtEq l p) s = .cont { s with ip := s.ip + 1 }) ∧
      (execInstr labels (.JumpLtEq l p) s = .cont { s with ip := s.ip + 1 }) ∧
      (execInstr labels (.JumpZero l p) s = .cont { s with ip := s.ip + 1 }) ∧
      (execInstr labels (.JumpNeg l p) s = .cont { s with ip := s.ip + 1 }) ∧
      (execInstr labels (.JumpNotZero l p) s = doJumpNoHalt labels l p s)) := by
  refine ⟨⟨rfl, rfl, rfl, rfl, rfl, rfl, rfl, rfl⟩,
    execInstr_preserves_flagsConsistent,
    runGo_preserves_flagsConsistent, execute_flagsConsistent, ?_, ?_⟩
  · intro labels s l p t hl hc
    constructor
    · simp only [execInstr, doJump, doJumpNoHalt, hl]
      rw [hc.1]
    · simp only [execInstr, doJump, doJumpNoHalt, hl]
      rw [hc.2]
  · intro labels s l p hf
    refine ⟨?_, ?_, ?_, ?_, ?_, ?_, ?_, ?_, ?_⟩ <;> simp [execInstr, hf, initFlags]

/-- C10 witness: the jz/jeq coincidence applied at the freshly created
machine state with a resolvable label, both hypotheses discharged by
evaluation. -/
theorem C10_witness :
    execInstr [("L", 0)] (.JumpZero "L" "1:1") (initState [] [] []) =
      execInstr [("L", 0)] (.JumpEq "L" "1:1") (initState [] [] []) :=
  (C10_flag_invariant.2.2.2.2.1 [("L", 0)] (initState [] [] []) "L" "1:1" 0
    (by decide) ⟨rfl, rfl⟩).1

end EvilStack
